import Mathlib

/-!
Verification of `dicom_normalize.py` (medbrief/dicom-normalizer).

Shallow embedding: the script's pure decision logic is translated into Lean
functions over an abstract dataset model.  External effects performed by the
pydicom library and the filesystem (reading the input file, the codec's
decompression attempt, writing the output, the post-write verification
re-read, UID generation) are modelled by an explicit environment `Env` whose
fields record the outcome each external call would produce during one run of
`normalise_one`.  A `try/except` around an external call in the Python source
becomes an `Option`/`Except`-valued oracle field; the catch-all in
`normalise_one` becomes the total `match` on those oracles.

Python-specific semantics that the source relies on are modelled explicitly:
* `str` truthiness: `ts_in or ImplicitVRLittleEndian` and
  `str(ts_in) if ts_in else ""` treat the empty string as absent;
* `dict` insertion semantics of `Dataset.add`: replacing an existing tag
  keeps its position, a new tag is appended;
* `pydicom.uid.UID` values are plain strings in the model (the constructor
  applied to a `str` returns that string).
-/

namespace DicomNormalize

/-- A DICOM tag: (group, element) pair, e.g. (0x7FE0, 0x0010) for PixelData. -/
structure Tag where
  group : Nat
  elem : Nat
deriving DecidableEq, Repr

/-- A data element: tag plus VR and value.  Values are modelled as the string
pydicom's `str()` would render (pixel data bytes included, abstractly). -/
structure Element where
  tag : Tag
  vr : String
  value : String
deriving DecidableEq, Repr

/-- The file-meta group (0x0002) attributes the script reads or writes.
Absent attributes are `none`; `pydicom` raises/returns the default for them. -/
structure FileMeta where
  fileMetaInformationVersion : Option String := none
  mediaStorageSOPClassUID : Option String := none
  mediaStorageSOPInstanceUID : Option String := none
  transferSyntaxUID : Option String := none
  implementationClassUID : Option String := none
deriving DecidableEq, Repr

/-- An in-memory dataset: the ordered body elements, the optional `file_meta`
attribute, and the two container encoding flags pydicom keeps on datasets. -/
structure Dataset where
  elems : List Element
  fileMeta : Option FileMeta
  isLittleEndian : Bool
  isImplicitVR : Bool
deriving DecidableEq, Repr

def tagSOPClassUID : Tag := ⟨0x0008, 0x0016⟩

def tagSOPInstanceUID : Tag := ⟨0x0008, 0x0018⟩

def tagModality : Tag := ⟨0x0008, 0x0060⟩

def tagManufacturer : Tag := ⟨0x0008, 0x0070⟩

def tagPixelData : Tag := ⟨0x7FE0, 0x0010⟩

/-- `ds.get(keyword, default)` with a present element yields its value;
this is the underlying tag lookup (`None`-free in the model: values are
already strings). -/
def getValue (ds : Dataset) (t : Tag) : Option String :=
  (ds.elems.find? fun e => e.tag = t).map Element.value

/-- `"PixelData" in ds`. -/
def hasPixelData (ds : Dataset) : Bool :=
  ds.elems.any fun e => e.tag = tagPixelData

/-- `1.2.840.10008.1.2.1`, pydicom's `ExplicitVRLittleEndian` constant. -/
def ExplicitVRLittleEndian : String := "1.2.840.10008.1.2.1"

/-- `1.2.840.10008.1.2`, pydicom's `ImplicitVRLittleEndian` constant. -/
def ImplicitVRLittleEndian : String := "1.2.840.10008.1.2"

/-- Outcomes of the external calls one run of `normalise_one` can make.
Each field records what the corresponding library/filesystem call returns
(`Except.error e` / `none` = the call raised, `e` being `str(exception)`). -/
structure Env where
  /-- `pydicom.dcmread(src_path, force=True, stop_before_pixels=False)`. -/
  read : Except String Dataset
  /-- the `UID(str(...))` constructor inside `ts_of`'s `try` block. -/
  uidParse : String → Option String
  /-- `UID(ts).is_compressed` inside `is_compressed`'s `try` block. -/
  isCompressedRes : String → Option Bool
  /-- `hasattr(ds, "decompress")`. -/
  hasDecompressAttr : Bool
  /-- `ds.decompress()`: `some v` = success, rewriting PixelData's value to
  `v`; `none` = the codec raised. -/
  decompressResult : Option String
  /-- whether `ds.pixel_array` evaluates without raising. -/
  pixelArrayOk : Bool
  /-- `pydicom.uid.generate_uid()`. -/
  genUID : String
  /-- `fds.save_as(dst_path, write_like_original=False)`. -/
  save : Except String Unit
  /-- the verification re-read: `dcmread(dst_path).file_meta`, `none` when
  anything in the verification `try` block raised. -/
  verifyRead : Option FileMeta

/-- `is_part10`: the dataset has a non-empty `file_meta` whose
`TransferSyntaxUID` attribute is set (a present `TransferSyntaxUID` already
makes `bool(file_meta)` true). -/
def is_part10 (ds : Dataset) : Bool :=
  match ds.fileMeta with
  | some fm => fm.transferSyntaxUID.isSome
  | none => false

/-- `ts_of`: the declared transfer syntax, `UID(str(...))` guarded by
`try/except` (the constructor outcome is the `uidParse` oracle). -/
def ts_of (ds : Dataset) (env : Env) : Option String :=
  if is_part10 ds then
    match ds.fileMeta with
    | some fm =>
      match fm.transferSyntaxUID with
      | some s =>
        match env.uidParse s with
        | some u => some u
        | none => none
      | none => none
    | none => none
  else none

/-- `is_compressed`: `if not ts: return False` (Python falsiness: `None` or
the empty UID string), then `UID(ts).is_compressed` guarded by `try/except`. -/
def is_compressed (env : Env) (ts : Option String) : Bool :=
  match ts with
  | none => false
  | some t => if t = "" then false else (env.isCompressedRes t).getD false

/-- in-place effect of a successful `ds.decompress()`: the PixelData
element's value is replaced by the decompressed byte stream.  (pydicom also
rewrites `ds.file_meta.TransferSyntaxUID`, but `normalise_one` never reads
`ds.file_meta` again after the decompression attempt, so that update is
unobservable and left out.) -/
def setPixelData (ds : Dataset) (v : String) : Dataset :=
  { ds with elems := ds.elems.map fun e =>
      if e.tag = tagPixelData then { e with value := v } else e }

/-- `try_decompress`, returning the Boolean result together with the dataset
as mutated in place (the fallback `_ = ds.pixel_array` does not rewrite the
PixelData element, so only the `ds.decompress()` success path mutates). -/
def try_decompress (ds : Dataset) (env : Env) : Bool × Dataset :=
  if ¬ hasPixelData ds then (false, ds)
  else
    let ts := ts_of ds env
    if is_compressed env ts then
      if env.hasDecompressAttr then
        match env.decompressResult with
        | some v => (true, setPixelData ds v)
        | none => (env.pixelArrayOk, ds)
      else (env.pixelArrayOk, ds)
    else if ts = none then (env.pixelArrayOk, ds)
    else (false, ds)

/-- the hard-coded fallback SOP class UID in `build_file_meta`. -/
def fallbackSOPClassUID : String := "1.2.840.10008.5.1.4.1.1.2"

/-- the hard-coded `ImplementationClassUID` written by `build_file_meta`. -/
def implementationClassUIDRoot : String := "1.2.826.0.1.3680043.10.743"

/-- `build_file_meta(src, target_ts)`; `gen` is the `generate_uid()` result. -/
def build_file_meta (src : Dataset) (target_ts : String) (gen : String) :
    FileMeta :=
  { fileMetaInformationVersion := some "\x00\x01"
    mediaStorageSOPClassUID :=
      some ((getValue src tagSOPClassUID).getD fallbackSOPClassUID)
    mediaStorageSOPInstanceUID :=
      some ((getValue src tagSOPInstanceUID).getD gen)
    transferSyntaxUID := some target_ts
    implementationClassUID := some implementationClassUIDRoot }

/-- Python's `str.lower` (character-wise, over the underlying list). -/
def strLower (s : String) : String :=
  String.mk (s.data.map Char.toLower)

/-- whether the first list leads the second (character-wise). -/
def leadsWith : List Char → List Char → Bool
  | [], _ => true
  | _ :: _, [] => false
  | a :: as, b :: bs => a = b && leadsWith as bs

/-- whether `needle` occurs contiguously inside the second list. -/
def occursIn (needle : List Char) : List Char → Bool
  | [] => leadsWith needle []
  | c :: rest => leadsWith needle (c :: rest) || occursIn needle rest

/-- Python's `needle in haystack` on strings. -/
def strContains (haystack needle : String) : Bool :=
  occursIn needle.data haystack.data

/-- Python's `s.startswith(pre)`. -/
def strStarts (s pre : String) : Bool :=
  leadsWith pre.data s.data

/-- `looks_like_ge`. -/
def looks_like_ge (ds : Dataset) : Bool :=
  let manu := strLower ((getValue ds tagManufacturer).getD "")
  let impl :=
    if is_part10 ds then
      match ds.fileMeta with
      | some fm => fm.implementationClassUID.getD ""
      | none => ""
    else ""
  strContains manu "ge" || strStarts impl "1.2.840.113619"

/-- the per-file CSV row assembled by `normalise_one`. -/
structure Row where
  input : String
  output : String
  status : String
  part10_in : String
  ts_in : String
  decompressed : String
  ts_out : String
  manufacturer : String
  modality : String
  sop_class : String
  error : String
deriving DecidableEq, Repr

/-- the initial row dict of `normalise_one` (status pre-set to FAIL). -/
def initRow (src dst : String) : Row :=
  { input := src, output := dst, status := "FAIL", part10_in := "",
    ts_in := "", decompressed := "", ts_out := "", manufacturer := "",
    modality := "", sop_class := "", error := "" }

/-- result of a run: the returned row, plus the effect trace of the write —
`some fds` records that `fds.save_as(dst_path)` was invoked on dataset
`fds` (whether or not the write then succeeded), `none` that the run ended
before reaching the write. -/
structure RunResult where
  row : Row
  written : Option Dataset
deriving DecidableEq, Repr

/-- `fds.add(elem)`: dict insertion — an already-present tag is overwritten
in place, a new tag is appended at the end. -/
def Dataset.add (ds : Dataset) (e : Element) : Dataset :=
  if ds.elems.any fun x => x.tag = e.tag then
    { ds with elems := ds.elems.map fun x => if x.tag = e.tag then e else x }
  else
    { ds with elems := ds.elems ++ [e] }

/-- one iteration of the copy loop: `if elem.tag.group != 0x0002:
fds.add(elem)`. -/
def copyStep (acc : Dataset) (e : Element) : Dataset :=
  if e.tag.group ≠ 0x0002 then acc.add e else acc

/-- the copy loop `for elem in ds.iterall(): if elem.tag.group != 0x0002:
fds.add(elem)` (datasets are modelled flat, per the at-most-one-element-per-
tag invariant, so `iterall()` is the element list). -/
def copyNonMeta (src dst : Dataset) : Dataset :=
  src.elems.foldl copyStep dst

/-- `fds.remove_private_tags()`: drops every element whose tag group is odd. -/
def remove_private_tags (ds : Dataset) : Dataset :=
  { ds with elems := ds.elems.filter fun e => e.tag.group % 2 = 0 }

/-- lines 133–139 of `normalise_one`: the target transfer syntax.  `ts_in or
ImplicitVRLittleEndian` uses Python truthiness, so an empty declared UID
string falls back to Implicit VR LE exactly like `None`. -/
def targetOf (ds : Dataset) (env : Env) : String :=
  if (try_decompress ds env).1 then ExplicitVRLittleEndian
  else
    match ts_of ds env with
    | some t => if t = "" then ImplicitVRLittleEndian else t
    | none => ImplicitVRLittleEndian

/-- the source dataset as it stands after the decompression attempt and the
flag writes of lines 135–136. -/
def sourceAfterDecompress (ds : Dataset) (env : Env) : Dataset :=
  let dres := try_decompress ds env
  if dres.1 then { dres.2 with isLittleEndian := true, isImplicitVR := false }
  else dres.2

/-- lines 141–154: the `FileDataset` handed to `save_as` — fresh file meta,
container flags from the target syntax, the non-meta element copy, then the
optional private-tag strip. -/
def outputDataset (ds : Dataset) (env : Env) (strip_private : Bool) :
    Dataset :=
  let src := sourceAfterDecompress ds env
  let t := targetOf ds env
  let fm := build_file_meta src t env.genUID
  let fds : Dataset :=
    { elems := [], fileMeta := some fm,
      isLittleEndian :=
        t = ExplicitVRLittleEndian || t = ImplicitVRLittleEndian,
      isImplicitVR := t = ImplicitVRLittleEndian }
  let fds := copyNonMeta src fds
  if strip_private then remove_private_tags fds else fds

/-- `normalise_one(src_path, dst_path, strip_private, only_ge)`.  The
enclosing `try/except` of the source is the total `match` on the oracles:
a raising `dcmread`/`save_as` lands in the `Except.error` branch, setting
`row["error"] = str(e)` and leaving the pre-set FAIL status. -/
def normalise_one (src_path dst_path : String)
    (strip_private only_ge : Bool) (env : Env) : RunResult :=
  let row := initRow src_path dst_path
  match env.read with
  | .error e => { row := { row with error := e }, written := none }
  | .ok ds =>
    if only_ge && ! looks_like_ge ds then
      { row := { row with status := "SKIP" }, written := none }
    else
      let ts_in := ts_of ds env
      let row := { row with
        part10_in := if is_part10 ds then "yes" else "no",
        ts_in := match ts_in with
          | some t => if t = "" then "" else t
          | none => "",
        manufacturer := (getValue ds tagManufacturer).getD "",
        modality := (getValue ds tagModality).getD "",
        sop_class := (getValue ds tagSOPClassUID).getD "" }
      let dec := (try_decompress ds env).1
      let row := { row with decompressed := if dec then "yes" else "no" }
      let fds := outputDataset ds env strip_private
      match env.save with
      | .error e => { row := { row with error := e }, written := some fds }
      | .ok _ =>
        let ts_out :=
          match env.verifyRead with
          | some fm2 => fm2.transferSyntaxUID.getD ""
          | none => ""
        { row := { row with ts_out := ts_out, status := "OK" },
          written := some fds }

/-- the transfer syntax recorded in the written file's meta, when a write
happened. -/
def writtenTS (r : RunResult) : Option String :=
  match r.written with
  | some fds =>
    match fds.fileMeta with
    | some fm => fm.transferSyntaxUID
    | none => none
  | none => none

/-- the `ImplementationClassUID` value `looks_like_ge` reads:
`str(ds.file_meta.get("ImplementationClassUID", ""))` when Part-10, else
the empty string. -/
def implClassValue (ds : Dataset) : String :=
  match ds.fileMeta with
  | some fm => fm.implementationClassUID.getD ""
  | none => ""

/-! ### Concrete fixtures used to instantiate the theorems -/

/-- a raw (headerless) dataset: GE-looking manufacturer text plus one
private (odd-group) vendor element. -/
def dsPlain : Dataset :=
  { elems := [⟨tagManufacturer, "LO", "Imagen"⟩,
              ⟨⟨0x0009, 0x0010⟩, "LO", "PRIVATE"⟩],
    fileMeta := none, isLittleEndian := true, isImplicitVR := true }

/-- an environment whose read yields `dsPlain` and whose write succeeds;
no codec succeeds, verification raises. -/
def envPlain : Env :=
  { read := .ok dsPlain, uidParse := fun s => some s,
    isCompressedRes := fun _ => some false, hasDecompressAttr := true,
    decompressResult := none, pixelArrayOk := false, genUID := "1.2.3.4",
    save := .ok (), verifyRead := none }

/-- a non-GE dataset (no "ge" in the lower-cased manufacturer). -/
def dsSiemens : Dataset :=
  { elems := [⟨tagManufacturer, "LO", "Siemens"⟩],
    fileMeta := none, isLittleEndian := true, isImplicitVR := true }

/-- environment reading `dsSiemens`. -/
def envSiemens : Env :=
  { envPlain with read := .ok dsSiemens }

/-- a Part-10 dataset declaring JPEG Baseline with pixel data. -/
def dsJpeg : Dataset :=
  { elems := [⟨tagPixelData, "OB", "JPEGBYTES"⟩],
    fileMeta := some { transferSyntaxUID := some "1.2.840.10008.1.2.4.50" },
    isLittleEndian := true, isImplicitVR := false }

/-- environment reading `dsJpeg`, classifying only JPEG Baseline as
compressed; the codec raises and the pixel-handler fallback raises too. -/
def envJpeg : Env :=
  { envPlain with
    read := .ok dsJpeg,
    isCompressedRes := fun s => some (s = "1.2.840.10008.1.2.4.50") }

/-- environment whose read raises with message "boom". -/
def envBoom : Env :=
  { envPlain with read := .error "boom" }

/-- environment whose read raises with an empty exception text
(e.g. Python's `str(ValueError())`). -/
def envNoMsg : Env :=
  { envPlain with read := .error "" }

/-- run-1 environment for the idempotence scenario: like `envPlain` but the
verification re-read honestly returns the file meta just written. -/
def env1R : Env :=
  { envPlain with
    verifyRead := some (build_file_meta dsPlain ImplicitVRLittleEndian
      "1.2.3.4") }

/-- the dataset a faithful re-read of run 1's output yields: same body
elements, file meta as written. -/
def ds2R : Dataset :=
  { elems := dsPlain.elems,
    fileMeta := some (build_file_meta dsPlain ImplicitVRLittleEndian
      "1.2.3.4"),
    isLittleEndian := true, isImplicitVR := true }

/-- run-2 environment: reads run 1's output back, same codec behaviour,
fresh generated UID, honest verification re-read. -/
def env2R : Env :=
  { envPlain with
    read := .ok ds2R,
    genUID := "5.6.7.8",
    verifyRead := some (build_file_meta ds2R ImplicitVRLittleEndian
      "5.6.7.8") }

/-! ### Lemmas about the element-copy machinery -/

theorem add_fileMeta (ds : Dataset) (e : Element) :
    (ds.add e).fileMeta = ds.fileMeta := by
  unfold Dataset.add; split <;> rfl

theorem copyStep_fileMeta (acc : Dataset) (e : Element) :
    (copyStep acc e).fileMeta = acc.fileMeta := by
  unfold copyStep; split
  · exact add_fileMeta acc e
  · rfl

theorem foldl_copyStep_fileMeta (l : List Element) :
    ∀ dst : Dataset, (l.foldl copyStep dst).fileMeta = dst.fileMeta := by
  induction l with
  | nil => intro dst; rfl
  | cons e rest ih => intro dst; rw [List.foldl_cons, ih, copyStep_fileMeta]

theorem copyNonMeta_fileMeta (src dst : Dataset) :
    (copyNonMeta src dst).fileMeta = dst.fileMeta :=
  foldl_copyStep_fileMeta src.elems dst

theorem remove_private_tags_fileMeta (ds : Dataset) :
    (remove_private_tags ds).fileMeta = ds.fileMeta := rfl

theorem add_elems_of_fresh (ds : Dataset) (e : Element)
    (h : ∀ x ∈ ds.elems, x.tag ≠ e.tag) :
    (ds.add e).elems = ds.elems ++ [e] := by
  have hany : (ds.elems.any fun x => x.tag = e.tag) = false := by
    rw [List.any_eq_false]
    intro x hx
    simpa using h x hx
  simp [Dataset.add, hany]

theorem foldl_copyStep_elems (l : List Element) :
    ∀ dst : Dataset, (l.map Element.tag).Nodup →
      (∀ e ∈ l, ∀ x ∈ dst.elems, x.tag ≠ e.tag) →
      (l.foldl copyStep dst).elems
        = dst.elems ++ l.filter fun e => e.tag.group ≠ 0x0002 := by
  induction l with
  | nil => intro dst _ _; simp
  | cons e rest ih =>
    intro dst hnd hdisj
    rw [List.map_cons, List.nodup_cons] at hnd
    rw [List.foldl_cons]
    by_cases hg : e.tag.group = 0x0002
    · have hstep : copyStep dst e = dst := by simp [copyStep, hg]
      rw [hstep, ih dst hnd.2 fun x hx => hdisj x (List.mem_cons_of_mem e hx)]
      congr 1
      simp [List.filter_cons, hg]
    · have hfresh : ∀ x ∈ dst.elems, x.tag ≠ e.tag := fun x hx =>
        hdisj e (List.mem_cons_self e rest) x hx
      have hstep : copyStep dst e = dst.add e := by simp [copyStep, hg]
      have helems : (dst.add e).elems = dst.elems ++ [e] :=
        add_elems_of_fresh dst e hfresh
      have hdisj2 : ∀ f ∈ rest, ∀ x ∈ (dst.add e).elems, x.tag ≠ f.tag := by
        intro f hf x hx
        rw [helems, List.mem_append] at hx
        rcases hx with hx | hx
        · exact hdisj f (List.mem_cons_of_mem e hf) x hx
        · rw [List.mem_singleton] at hx
          subst hx
          intro hcontra
          exact hnd.1 (hcontra ▸ List.mem_map_of_mem Element.tag hf)
      rw [hstep, ih (dst.add e) hnd.2 hdisj2, helems]
      rw [List.filter_cons]
      simp [hg]

theorem copyNonMeta_elems (src dst : Dataset)
    (hnd : (src.elems.map Element.tag).Nodup)
    (hdisj : ∀ e ∈ src.elems, ∀ x ∈ dst.elems, x.tag ≠ e.tag) :
    (copyNonMeta src dst).elems
      = dst.elems ++ src.elems.filter fun e => e.tag.group ≠ 0x0002 :=
  foldl_copyStep_elems src.elems dst hnd hdisj

/-! ### Lemmas about the decompression attempt -/

theorem map_tag_setPix (l : List Element) (v : String) :
    (l.map fun e =>
        if e.tag = tagPixelData then { e with value := v } else e).map
          Element.tag
      = l.map Element.tag := by
  induction l with
  | nil => rfl
  | cons e rest ih =>
    simp only [List.map_cons, ih]
    congr 1
    by_cases h : e.tag = tagPixelData <;> simp [h]

theorem setPixelData_tags (ds : Dataset) (v : String) :
    (setPixelData ds v).elems.map Element.tag = ds.elems.map Element.tag := by
  simpa [setPixelData] using map_tag_setPix ds.elems v

theorem mem_of_setPixelData (ds : Dataset) (v : String) (e : Element)
    (he : e ∈ (setPixelData ds v).elems) (hne : e.tag ≠ tagPixelData) :
    e ∈ ds.elems := by
  simp only [setPixelData, List.mem_map] at he
  obtain ⟨x, hx, hxe⟩ := he
  by_cases hxt : x.tag = tagPixelData
  · rw [if_pos hxt] at hxe
    exfalso
    apply hne
    rw [← hxe]
    exact hxt
  · rw [if_neg hxt] at hxe
    exact hxe ▸ hx

theorem try_decompress_snd_cases (ds : Dataset) (env : Env) :
    (try_decompress ds env).2 = ds
      ∨ ∃ v, (try_decompress ds env).2 = setPixelData ds v := by
  by_cases hpx : hasPixelData ds <;>
    by_cases hc : is_compressed env (ts_of ds env) <;>
    by_cases hts : ts_of ds env = none <;>
    cases hattr : env.hasDecompressAttr <;>
    cases hdr : env.decompressResult <;>
    simp only [try_decompress, hpx, hc, hts, hattr, hdr, not_true, not_false_iff,
      if_true, if_false, ite_true, ite_false, Bool.false_eq_true, Bool.true_eq_false] <;>
    first
    | (left; rfl)
    | (right; exact ⟨_, rfl⟩)
    | (left; simp [hpx])

theorem try_decompress_snd_tags (ds : Dataset) (env : Env) :
    (try_decompress ds env).2.elems.map Element.tag
      = ds.elems.map Element.tag := by
  rcases try_decompress_snd_cases ds env with h | ⟨v, h⟩
  · rw [h]
  · rw [h, setPixelData_tags]

theorem sourceAfterDecompress_elems (ds : Dataset) (env : Env) :
    (sourceAfterDecompress ds env).elems = (try_decompress ds env).2.elems := by
  unfold sourceAfterDecompress
  by_cases h : (try_decompress ds env).1 <;> simp [h]

theorem sourceAfterDecompress_tags (ds : Dataset) (env : Env) :
    (sourceAfterDecompress ds env).elems.map Element.tag
      = ds.elems.map Element.tag := by
  rw [sourceAfterDecompress_elems, try_decompress_snd_tags]

theorem mem_source_of_ne_pixel (ds : Dataset) (env : Env) (e : Element)
    (he : e ∈ (sourceAfterDecompress ds env).elems)
    (hne : e.tag ≠ tagPixelData) : e ∈ ds.elems := by
  rw [sourceAfterDecompress_elems] at he
  rcases try_decompress_snd_cases ds env with h | ⟨v, h⟩
  · rw [h] at he; exact he
  · rw [h] at he; exact mem_of_setPixelData ds v e he hne

theorem filter_nonmeta_map (l : List Element) :
    (l.filter fun e => e.tag.group ≠ 0x0002).map Element.tag
      = (l.map Element.tag).filter fun t => t.group ≠ 0x0002 := by
  induction l with
  | nil => rfl
  | cons e rest ih =>
    simp only [List.map_cons, List.filter_cons]
    by_cases hq : e.tag.group = 0x0002
    · simp only [hq]
      simp only [ne_eq, decide_not]
      simpa using ih
    · simp [hq]
      simpa using ih

theorem map_tag_filter_congr (l₁ l₂ : List Element)
    (h : l₁.map Element.tag = l₂.map Element.tag) :
    (l₁.filter fun e => e.tag.group ≠ 0x0002).map Element.tag
      = (l₂.filter fun e => e.tag.group ≠ 0x0002).map Element.tag := by
  rw [filter_nonmeta_map, filter_nonmeta_map, h]

/-! ### Lemmas about the output dataset and the target-syntax selection -/

theorem remove_private_tags_elems (ds : Dataset) :
    (remove_private_tags ds).elems
      = ds.elems.filter fun e => e.tag.group % 2 = 0 := rfl

theorem outputDataset_strip_eq (ds : Dataset) (env : Env) :
    outputDataset ds env true
      = remove_private_tags (outputDataset ds env false) := rfl

theorem outputDataset_fileMeta (ds : Dataset) (env : Env) (sp : Bool) :
    (outputDataset ds env sp).fileMeta
      = some (build_file_meta (sourceAfterDecompress ds env) (targetOf ds env)
          env.genUID) := by
  cases sp
  · simp [outputDataset, copyNonMeta_fileMeta]
  · simp [outputDataset, remove_private_tags_fileMeta, copyNonMeta_fileMeta]

theorem copyNonMeta_elems_nil (src dst : Dataset) (hdst : dst.elems = [])
    (hnd : (src.elems.map Element.tag).Nodup) :
    (copyNonMeta src dst).elems
      = src.elems.filter fun e => e.tag.group ≠ 0x0002 := by
  have hdisj : ∀ e ∈ src.elems, ∀ x ∈ dst.elems, x.tag ≠ e.tag := by
    intro e he x hx
    rw [hdst] at hx
    exact absurd hx (List.not_mem_nil x)
  rw [copyNonMeta_elems src dst hnd hdisj, hdst, List.nil_append]

theorem outputDataset_elems_nostrip (ds : Dataset) (env : Env)
    (hnd : (ds.elems.map Element.tag).Nodup) :
    (outputDataset ds env false).elems
      = (sourceAfterDecompress ds env).elems.filter
          fun e => e.tag.group ≠ 0x0002 := by
  have hnd2 : ((sourceAfterDecompress ds env).elems.map Element.tag).Nodup := by
    rw [sourceAfterDecompress_tags]; exact hnd
  simp only [outputDataset]
  exact copyNonMeta_elems_nil _ _ rfl hnd2

theorem explicit_ne_empty : ExplicitVRLittleEndian ≠ "" := by decide

theorem implicit_ne_empty : ImplicitVRLittleEndian ≠ "" := by decide

theorem targetOf_of_decompressed (ds : Dataset) (env : Env)
    (h : (try_decompress ds env).1 = true) :
    targetOf ds env = ExplicitVRLittleEndian := by
  simp [targetOf, h]

theorem targetOf_of_ts (ds : Dataset) (env : Env) (t : String)
    (hdec : (try_decompress ds env).1 = false)
    (hts : ts_of ds env = some t) (hne : t ≠ "") :
    targetOf ds env = t := by
  simp [targetOf, hdec, hts, hne]

theorem targetOf_of_none (ds : Dataset) (env : Env)
    (hdec : (try_decompress ds env).1 = false)
    (hts : ts_of ds env = none) :
    targetOf ds env = ImplicitVRLittleEndian := by
  simp [targetOf, hdec, hts]

theorem targetOf_of_empty (ds : Dataset) (env : Env)
    (hdec : (try_decompress ds env).1 = false)
    (hts : ts_of ds env = some "") :
    targetOf ds env = ImplicitVRLittleEndian := by
  simp [targetOf, hdec, hts]

theorem targetOf_ne_empty (ds : Dataset) (env : Env) : targetOf ds env ≠ "" := by
  unfold targetOf
  by_cases h : (try_decompress ds env).1
  · simp only [h, if_pos]
    exact explicit_ne_empty
  · simp only [h]
    cases hts : ts_of ds env with
    | none => simp [implicit_ne_empty]
    | some t =>
      by_cases he : t = ""
      · simp [he, implicit_ne_empty]
      · simp [he]

/-! ### Lemmas about the decompression outcome -/

theorem try_decompress_fst_of_not_compressed (ds : Dataset) (env : Env)
    (t : String) (hts : ts_of ds env = some t)
    (hc : is_compressed env (some t) = false) :
    (try_decompress ds env).1 = false := by
  by_cases hpx : hasPixelData ds
  · simp [try_decompress, hpx, hts, hc]
  · simp [try_decompress, hpx]

theorem try_decompress_fst_inv (ds : Dataset) (env : Env) (t : String)
    (hpx : hasPixelData ds = true)
    (hts : ts_of ds env = some t)
    (hc : is_compressed env (some t) = true)
    (hres : (try_decompress ds env).1 = false) :
    env.pixelArrayOk = false
      ∧ (env.hasDecompressAttr = true → env.decompressResult = none) := by
  cases hattr : env.hasDecompressAttr <;> cases hdr : env.decompressResult <;>
    simp [try_decompress, hpx, hts, hc, hattr, hdr] at hres <;>
    simp [hres, hattr, hdr]

theorem try_decompress_fst_fwd (ds : Dataset) (env : Env) (t : String)
    (hts : ts_of ds env = some t)
    (hc : is_compressed env (some t) = true)
    (hpix : env.pixelArrayOk = false)
    (hdec : env.hasDecompressAttr = true → env.decompressResult = none) :
    (try_decompress ds env).1 = false := by
  by_cases hpx : hasPixelData ds
  · cases hattr : env.hasDecompressAttr
    · simp [try_decompress, hpx, hts, hc, hattr, hpix]
    · have hdr := hdec hattr
      simp [try_decompress, hpx, hts, hc, hattr, hdr, hpix]
  · simp [try_decompress, hpx]

theorem try_decompress_fst_no_pixel (ds : Dataset) (env : Env)
    (hpx : hasPixelData ds = false) :
    (try_decompress ds env).1 = false := by
  simp [try_decompress, hpx]

theorem is_compressed_congr (env1 env2 : Env)
    (h : env2.isCompressedRes = env1.isCompressedRes) (ts : Option String) :
    is_compressed env2 ts = is_compressed env1 ts := by
  cases ts with
  | none => rfl
  | some t => simp [is_compressed, h]

/-! ### Projection lemmas for one run of the pipeline -/

theorem normalise_one_read_error (src dst : String) (sp og : Bool) (env : Env)
    (e : String) (h : env.read = .error e) :
    normalise_one src dst sp og env
      = { row := { initRow src dst with error := e }, written := none } := by
  simp [normalise_one, h]

theorem normalise_one_skip (src dst : String) (sp : Bool) (env : Env)
    (ds : Dataset) (h : env.read = .ok ds)
    (hge : looks_like_ge ds = false) :
    normalise_one src dst sp true env
      = { row := { initRow src dst with status := "SKIP" },
          written := none } := by
  simp [normalise_one, h, hge]

theorem normalise_one_written_eq (src dst : String) (sp og : Bool) (env : Env)
    (ds : Dataset) (h : env.read = .ok ds)
    (hsk : (og && ! looks_like_ge ds) = false) :
    (normalise_one src dst sp og env).written
      = some (outputDataset ds env sp) := by
  cases hs : env.save with
  | error e => simp [normalise_one, h, hsk, hs]
  | ok u => cases u; simp [normalise_one, h, hsk, hs]

theorem normalise_one_status_ok (src dst : String) (sp og : Bool) (env : Env)
    (ds : Dataset) (h : env.read = .ok ds)
    (hsk : (og && ! looks_like_ge ds) = false)
    (hs : env.save = .ok ()) :
    (normalise_one src dst sp og env).row.status = "OK" := by
  simp [normalise_one, h, hsk, hs]

theorem normalise_one_ts_out (src dst : String) (sp og : Bool) (env : Env)
    (ds : Dataset) (h : env.read = .ok ds)
    (hsk : (og && ! looks_like_ge ds) = false)
    (hs : env.save = .ok ()) :
    (normalise_one src dst sp og env).row.ts_out
      = (match env.verifyRead with
         | some fm => fm.transferSyntaxUID.getD ""
         | none => "") := by
  simp [normalise_one, h, hsk, hs]

theorem normalise_one_part10 (src dst : String) (sp og : Bool) (env : Env)
    (ds : Dataset) (h : env.read = .ok ds)
    (hsk : (og && ! looks_like_ge ds) = false) :
    (normalise_one src dst sp og env).row.part10_in
      = (if is_part10 ds then "yes" else "no") := by
  cases hs : env.save with
  | error e => simp [normalise_one, h, hsk, hs]
  | ok u => cases u; simp [normalise_one, h, hsk, hs]

theorem normalise_one_decompressed (src dst : String) (sp og : Bool)
    (env : Env) (ds : Dataset) (h : env.read = .ok ds)
    (hsk : (og && ! looks_like_ge ds) = false) :
    (normalise_one src dst sp og env).row.decompressed
      = (if (try_decompress ds env).1 then "yes" else "no") := by
  cases hs : env.save with
  | error e => simp [normalise_one, h, hsk, hs]
  | ok u => cases u; simp [normalise_one, h, hsk, hs]

/-! ### The claims -/

/-- C5: `build_file_meta` always returns a fully populated file meta — all
five attributes set — with `TransferSyntaxUID` equal to the target syntax,
`MediaStorageSOPInstanceUID` equal to the source's SOP Instance UID when
present and the freshly generated UID otherwise, and
`MediaStorageSOPClassUID` equal to the source's SOP Class UID when present
and the fixed fallback class UID otherwise. -/
theorem claim5_build_file_meta (src : Dataset) (t g : String) :
    ((build_file_meta src t g).fileMetaInformationVersion.isSome = true
      ∧ (build_file_meta src t g).mediaStorageSOPClassUID.isSome = true
      ∧ (build_file_meta src t g).mediaStorageSOPInstanceUID.isSome = true
      ∧ (build_file_meta src t g).transferSyntaxUID.isSome = true
      ∧ (build_file_meta src t g).implementationClassUID.isSome = true)
    ∧ (build_file_meta src t g).transferSyntaxUID = some t
    ∧ (∀ v, getValue src tagSOPInstanceUID = some v →
        (build_file_meta src t g).mediaStorageSOPInstanceUID = some v)
    ∧ (getValue src tagSOPInstanceUID = none →
        (build_file_meta src t g).mediaStorageSOPInstanceUID = some g)
    ∧ (∀ v, getValue src tagSOPClassUID = some v →
        (build_file_meta src t g).mediaStorageSOPClassUID = some v)
    ∧ (getValue src tagSOPClassUID = none →
        (build_file_meta src t g).mediaStorageSOPClassUID
          = some fallbackSOPClassUID) := by
  refine ⟨⟨rfl, rfl, rfl, rfl, rfl⟩, rfl, ?_, ?_, ?_, ?_⟩
  · intro v hv; simp [build_file_meta, hv]
  · intro hv; simp [build_file_meta, hv]
  · intro v hv; simp [build_file_meta, hv]
  · intro hv; simp [build_file_meta, hv]

/-- witness for C5 at a concrete source lacking both SOP UIDs: the
generated UID and the fallback class UID are taken. -/
theorem claim5_build_file_meta_witness :
    getValue dsPlain tagSOPInstanceUID = none
    ∧ getValue dsPlain tagSOPClassUID = none
    ∧ (build_file_meta dsPlain ExplicitVRLittleEndian
        "1.2.3.4").mediaStorageSOPInstanceUID = some "1.2.3.4"
    ∧ (build_file_meta dsPlain ExplicitVRLittleEndian
        "1.2.3.4").mediaStorageSOPClassUID = some fallbackSOPClassUID :=
  ⟨rfl, rfl,
    (claim5_build_file_meta dsPlain ExplicitVRLittleEndian
      "1.2.3.4").2.2.2.1 rfl,
    (claim5_build_file_meta dsPlain ExplicitVRLittleEndian
      "1.2.3.4").2.2.2.2.2 rfl⟩

/-- C10: `looks_like_ge` holds exactly when the lower-cased `Manufacturer`
value contains the substring "ge" anywhere (so "Imagen" or "General
Imaging" match), or the dataset is Part-10 and its file-meta
`ImplementationClassUID` starts with "1.2.840.113619". -/
theorem claim10_looks_like_ge_iff (ds : Dataset) :
    looks_like_ge ds = true ↔
      (strContains (strLower ((getValue ds tagManufacturer).getD "")) "ge"
          = true
        ∨ (is_part10 ds = true
            ∧ strStarts (implClassValue ds) "1.2.840.113619" = true)) := by
  have hempty : strStarts "" "1.2.840.113619" = false := by decide
  unfold looks_like_ge implClassValue
  by_cases hp : is_part10 ds
  · cases hm : ds.fileMeta with
    | none => rw [is_part10, hm] at hp; simp at hp
    | some fm => simp [hp, hm]
  · simp [hp, hempty]

/-- C6: when the pipeline reaches a successful write but the post-write
verification re-read raises, the outcome keeps status OK and only the
`ts_out` field is left empty — verification failure never downgrades the
status. -/
theorem claim6_verify_diagnostic (src dst : String) (sp og : Bool)
    (env : Env) (ds : Dataset) (h : env.read = .ok ds)
    (hsk : (og && ! looks_like_ge ds) = false)
    (hs : env.save = .ok ())
    (hv : env.verifyRead = none) :
    (normalise_one src dst sp og env).row.status = "OK"
      ∧ (normalise_one src dst sp og env).row.ts_out = "" := by
  refine ⟨normalise_one_status_ok src dst sp og env ds h hsk hs, ?_⟩
  rw [normalise_one_ts_out src dst sp og env ds h hsk hs, hv]

/-- witness for C6: a successful run whose verification re-read raises. -/
theorem claim6_verify_diagnostic_witness :
    envPlain.read = .ok dsPlain ∧ envPlain.save = .ok ()
    ∧ envPlain.verifyRead = none
    ∧ (normalise_one "in.dcm" "out.dcm" false false envPlain).row.status
        = "OK"
    ∧ (normalise_one "in.dcm" "out.dcm" false false envPlain).row.ts_out
        = "" := by
  refine ⟨rfl, rfl, rfl, ?_, ?_⟩
  · exact (claim6_verify_diagnostic "in.dcm" "out.dcm" false false envPlain
      dsPlain rfl rfl rfl rfl).1
  · exact (claim6_verify_diagnostic "in.dcm" "out.dcm" false false envPlain
      dsPlain rfl rfl rfl rfl).2

/-- C9: with the vendor filter enabled and a non-matching dataset,
`normalise_one` returns SKIP, never reaches the write, and leaves every
dataset-derived field of the record empty. -/
theorem claim9_skip_outcome (src dst : String) (sp : Bool) (env : Env)
    (ds : Dataset) (h : env.read = .ok ds)
    (hge : looks_like_ge ds = false) :
    (normalise_one src dst sp true env).row.status = "SKIP"
    ∧ (normalise_one src dst sp true env).written = none
    ∧ (normalise_one src dst sp true env).row.part10_in = ""
    ∧ (normalise_one src dst sp true env).row.ts_in = ""
    ∧ (normalise_one src dst sp true env).row.decompressed = ""
    ∧ (normalise_one src dst sp true env).row.ts_out = ""
    ∧ (normalise_one src dst sp true env).row.manufacturer = ""
    ∧ (normalise_one src dst sp true env).row.modality = ""
    ∧ (normalise_one src dst sp true env).row.sop_class = ""
    ∧ (normalise_one src dst sp true env).row.error = "" := by
  simp [normalise_one_skip src dst sp env ds h hge, initRow]

/-- witness for C9: a Siemens dataset under the GE-only filter. -/
theorem claim9_skip_outcome_witness :
    envSiemens.read = .ok dsSiemens ∧ looks_like_ge dsSiemens = false
    ∧ (normalise_one "in.dcm" "out.dcm" false true envSiemens).row.status
        = "SKIP"
    ∧ (normalise_one "in.dcm" "out.dcm" false true
        envSiemens).written = none := by
  refine ⟨rfl, by decide, ?_, ?_⟩
  · exact (claim9_skip_outcome "in.dcm" "out.dcm" false envSiemens dsSiemens
      rfl (by decide)).1
  · exact (claim9_skip_outcome "in.dcm" "out.dcm" false envSiemens dsSiemens
      rfl (by decide)).2.1

/-- C3: for a dataset carrying pixel data whose declared transfer syntax is
classified as compressed, `try_decompress` asks the codec: the result is
true exactly when the in-place `decompress()` call succeeds or the
pixel-handler fallback does, and when the codec fails on both paths the
failure is absorbed and `try_decompress` returns false.  (The embedding is
a total function: every `try/except` of the source is a matched oracle, so
no exception can escape for any input.) -/
theorem claim3_decompress_failure_absorbed (ds : Dataset) (env : Env)
    (t : String) (hpx : hasPixelData ds = true)
    (hts : ts_of ds env = some t)
    (hc : is_compressed env (some t) = true) :
    (try_decompress ds env).1
        = ((env.hasDecompressAttr && env.decompressResult.isSome)
            || env.pixelArrayOk)
    ∧ (env.decompressResult = none → env.pixelArrayOk = false →
        (try_decompress ds env).1 = false) := by
  constructor
  · cases hattr : env.hasDecompressAttr <;>
      cases hdr : env.decompressResult <;>
      simp [try_decompress, hpx, hts, hc, hattr, hdr]
  · intro h1 h2
    exact try_decompress_fst_fwd ds env t hts hc h2 fun _ => h1

/-- witness for C3: a JPEG-Baseline dataset whose codec raises on both
paths; the failure is absorbed. -/
theorem claim3_decompress_failure_absorbed_witness :
    hasPixelData dsJpeg = true
    ∧ ts_of dsJpeg envJpeg = some "1.2.840.10008.1.2.4.50"
    ∧ is_compressed envJpeg (some "1.2.840.10008.1.2.4.50") = true
    ∧ (try_decompress dsJpeg envJpeg).1 = false := by
  refine ⟨rfl, rfl, by decide, ?_⟩
  exact (claim3_decompress_failure_absorbed dsJpeg envJpeg
    "1.2.840.10008.1.2.4.50" rfl rfl (by decide)).2 rfl rfl

/-- C1: for every processed dataset (read succeeded, not skipped) the
transfer syntax written into the output file meta is the selected target:
Explicit VR LE when decompression succeeded; otherwise the declared input
syntax when one was parsed (a non-empty UID string — pydicom's falsy empty
UID falls through, exactly as `ts_in or ImplicitVRLittleEndian` does);
otherwise Implicit VR LE. -/
theorem claim1_target_choice (src dst : String) (sp og : Bool) (env : Env)
    (ds : Dataset) (h : env.read = .ok ds)
    (hsk : (og && ! looks_like_ge ds) = false) :
    writtenTS (normalise_one src dst sp og env) = some (targetOf ds env)
    ∧ ((try_decompress ds env).1 = true →
        targetOf ds env = ExplicitVRLittleEndian)
    ∧ (∀ t, (try_decompress ds env).1 = false → ts_of ds env = some t →
        t ≠ "" → targetOf ds env = t)
    ∧ ((try_decompress ds env).1 = false → ts_of ds env = none →
        targetOf ds env = ImplicitVRLittleEndian)
    ∧ ((try_decompress ds env).1 = false → ts_of ds env = some "" →
        targetOf ds env = ImplicitVRLittleEndian) := by
  refine ⟨?_, targetOf_of_decompressed ds env,
    fun t hd hts hne => targetOf_of_ts ds env t hd hts hne,
    targetOf_of_none ds env, targetOf_of_empty ds env⟩
  simp [writtenTS, normalise_one_written_eq src dst sp og env ds h hsk,
    outputDataset_fileMeta, build_file_meta]

/-- witness for C1: a raw headerless dataset, no decompression, lands on
Implicit VR LE. -/
theorem claim1_target_choice_witness :
    envPlain.read = .ok dsPlain
    ∧ writtenTS (normalise_one "in.dcm" "out.dcm" false false envPlain)
        = some (targetOf dsPlain envPlain)
    ∧ targetOf dsPlain envPlain = ImplicitVRLittleEndian := by
  refine ⟨rfl, ?_, by decide⟩
  exact (claim1_target_choice "in.dcm" "out.dcm" false false envPlain dsPlain
    rfl rfl).1

/-- C2: the body of the written dataset is exactly the source's elements
(as they stand after the in-place decompression attempt) whose tag group is
not 0x0002, in order; no meta-group element leaks into the body; with
`strip_private = false` the tag sequence of the output equals that of the
original source minus the meta group, and every element other than
PixelData is carried over from the original source untouched.  (The
at-most-one-element-per-tag dataset invariant is assumed, matching the data
model.) -/
theorem claim2_copy_exact (src dst : String) (og : Bool) (env : Env)
    (ds : Dataset) (h : env.read = .ok ds)
    (hsk : (og && ! looks_like_ge ds) = false)
    (hnd : (ds.elems.map Element.tag).Nodup) :
    ∀ fds, (normalise_one src dst false og env).written = some fds →
      fds.elems = (sourceAfterDecompress ds env).elems.filter
          (fun e => e.tag.group ≠ 0x0002)
      ∧ (∀ e ∈ fds.elems, e.tag.group ≠ 0x0002)
      ∧ fds.elems.map Element.tag
          = (ds.elems.filter fun e => e.tag.group ≠ 0x0002).map Element.tag
      ∧ (∀ e ∈ fds.elems, e.tag ≠ tagPixelData → e ∈ ds.elems) := by
  intro fds hw
  rw [normalise_one_written_eq src dst false og env ds h hsk] at hw
  have hfds : outputDataset ds env false = fds := Option.some.inj hw
  subst hfds
  rw [outputDataset_elems_nostrip ds env hnd]
  refine ⟨rfl, ?_, ?_, ?_⟩
  · intro e he
    simp only [List.mem_filter, decide_eq_true_eq] at he
    exact he.2
  · exact map_tag_filter_congr _ _ (sourceAfterDecompress_tags ds env)
  · intro e he hne
    exact mem_source_of_ne_pixel ds env e (List.mem_of_mem_filter he) hne

/-- witness for C2 on the concrete raw dataset (both elements survive, no
meta group present). -/
theorem claim2_copy_exact_witness :
    envPlain.read = .ok dsPlain
    ∧ (dsPlain.elems.map Element.tag).Nodup
    ∧ ((outputDataset dsPlain envPlain false).elems
        = (sourceAfterDecompress dsPlain envPlain).elems.filter
            (fun e => e.tag.group ≠ 0x0002)
      ∧ (∀ e ∈ (outputDataset dsPlain envPlain false).elems,
          e.tag.group ≠ 0x0002)
      ∧ (outputDataset dsPlain envPlain false).elems.map Element.tag
          = (dsPlain.elems.filter
              fun e => e.tag.group ≠ 0x0002).map Element.tag
      ∧ (∀ e ∈ (outputDataset dsPlain envPlain false).elems,
          e.tag ≠ tagPixelData → e ∈ dsPlain.elems)) := by
  refine ⟨rfl, by decide, ?_⟩
  exact claim2_copy_exact "in.dcm" "out.dcm" false envPlain dsPlain rfl rfl
    (by decide) (outputDataset dsPlain envPlain false) rfl

/-- C7: with `strip_private = true` no odd-group element remains in the
written dataset, and the stripping is a pure post-filter of the already
copied output (it happens after the copy, and the returned row — vendor
detection, decompression outcome, meta-derived fields — is unchanged by
it). -/
theorem claim7_strip_private (src dst : String) (og : Bool) (env : Env)
    (ds : Dataset) (h : env.read = .ok ds)
    (hsk : (og && ! looks_like_ge ds) = false) :
    (∀ fds, (normalise_one src dst true og env).written = some fds →
      (∀ e ∈ fds.elems, e.tag.group % 2 = 0)
      ∧ ∀ fds0, (normalise_one src dst false og env).written = some fds0 →
          fds.elems = fds0.elems.filter fun e => e.tag.group % 2 = 0)
    ∧ (normalise_one src dst true og env).row
        = (normalise_one src dst false og env).row := by
  constructor
  · intro fds hw
    rw [normalise_one_written_eq src dst true og env ds h hsk] at hw
    have hfds : outputDataset ds env true = fds := Option.some.inj hw
    subst hfds
    constructor
    · intro e he
      rw [outputDataset_strip_eq, remove_private_tags_elems] at he
      simp only [List.mem_filter, decide_eq_true_eq] at he
      exact he.2
    · intro fds0 hw0
      rw [normalise_one_written_eq src dst false og env ds h hsk] at hw0
      have hfds0 : outputDataset ds env false = fds0 := Option.some.inj hw0
      subst hfds0
      rw [outputDataset_strip_eq, remove_private_tags_elems]
  · cases hs : env.save with
    | error e => simp [normalise_one, h, hsk, hs]
    | ok u => cases u; simp [normalise_one, h, hsk, hs]

/-- witness for C7: stripping the concrete raw dataset removes its
odd-group vendor element and nothing else, leaving the row unchanged. -/
theorem claim7_strip_private_witness :
    envPlain.read = .ok dsPlain
    ∧ (∀ e ∈ (outputDataset dsPlain envPlain true).elems,
        e.tag.group % 2 = 0)
    ∧ (normalise_one "in.dcm" "out.dcm" true false envPlain).row
        = (normalise_one "in.dcm" "out.dcm" false false envPlain).row := by
  refine ⟨rfl, ?_, ?_⟩
  · exact ((claim7_strip_private "in.dcm" "out.dcm" false envPlain dsPlain
      rfl rfl).1 (outputDataset dsPlain envPlain true) rfl).1
  · exact (claim7_strip_private "in.dcm" "out.dcm" false envPlain dsPlain
      rfl rfl).2

/-- counterexample to C4 as frozen: an exception whose Python `str` is the
empty string (`row["error"] = str(e)` makes no non-emptiness promise)
yields a FAIL record with an empty error field, refuting "error non-empty
iff status FAIL". -/
theorem claim4_counterexample :
    ¬ (((normalise_one "in.dcm" "out.dcm" false false envNoMsg).row.error
          ≠ "")
        ↔ (normalise_one "in.dcm" "out.dcm" false false
            envNoMsg).row.status = "FAIL") := by
  decide

/-- C4 (amended): `normalise_one` always returns exactly one record whose
status is OK, SKIP or FAIL; a read or write failure yields status FAIL with
the error field equal to the exception text (so the error field is
non-empty on FAIL whenever the exception text is non-empty), and a
non-empty error field occurs only with status FAIL. -/
theorem claim4_fail_on_errors (src dst : String) (sp og : Bool)
    (env : Env) :
    (∀ e, env.read = .error e →
      (normalise_one src dst sp og env).row.status = "FAIL"
        ∧ (normalise_one src dst sp og env).row.error = e)
    ∧ (∀ ds e, env.read = .ok ds → (og && ! looks_like_ge ds) = false →
        env.save = .error e →
        (normalise_one src dst sp og env).row.status = "FAIL"
          ∧ (normalise_one src dst sp og env).row.error = e)
    ∧ ((normalise_one src dst sp og env).row.error ≠ "" →
        (normalise_one src dst sp og env).row.status = "FAIL")
    ∧ ((normalise_one src dst sp og env).row.status = "OK"
        ∨ (normalise_one src dst sp og env).row.status = "SKIP"
        ∨ (normalise_one src dst sp og env).row.status = "FAIL") := by
  refine ⟨?_, ?_, ?_, ?_⟩
  · intro e he
    simp [normalise_one_read_error src dst sp og env e he, initRow]
  · intro ds e h hsk hs
    constructor <;> simp [normalise_one, h, hsk, hs, initRow]
  · cases hr : env.read with
    | error e =>
      simp [normalise_one_read_error src dst sp og env e hr, initRow]
    | ok ds =>
      cases hb : og && ! looks_like_ge ds with
      | true => simp [normalise_one, hr, hb, initRow]
      | false =>
        cases hs : env.save with
        | error e => simp [normalise_one, hr, hb, hs, initRow]
        | ok u => cases u; simp [normalise_one, hr, hb, hs, initRow]
  · cases hr : env.read with
    | error e =>
      simp [normalise_one_read_error src dst sp og env e hr, initRow]
    | ok ds =>
      cases hb : og && ! looks_like_ge ds with
      | true => simp [normalise_one, hr, hb, initRow]
      | false =>
        cases hs : env.save with
        | error e => simp [normalise_one, hr, hb, hs, initRow]
        | ok u => cases u; simp [normalise_one, hr, hb, hs, initRow]

/-- witness for C4 (amended): a read raising "boom" gives FAIL / "boom". -/
theorem claim4_fail_on_errors_witness :
    envBoom.read = .error "boom"
    ∧ (normalise_one "in.dcm" "out.dcm" false false envBoom).row.status
        = "FAIL"
    ∧ (normalise_one "in.dcm" "out.dcm" false false envBoom).row.error
        = "boom" := by
  refine ⟨rfl, ?_, ?_⟩
  · exact ((claim4_fail_on_errors "in.dcm" "out.dcm" false false
      envBoom).1 "boom" rfl).1
  · exact ((claim4_fail_on_errors "in.dcm" "out.dcm" false false
      envBoom).1 "boom" rfl).2

/-- C8: idempotence in outcome.  Run 1 succeeds (read ok, not skipped,
write ok) and writes `fds`; run 2 reads that output back faithfully (same
file meta, honest verification re-reads, the external `UID` constructor is
the identity on the written syntax, the codec oracles are the same pure
functions in both runs — decompression is deterministic — the fixed
registry classifies the two little-endian syntaxes as uncompressed, and the
round trip introduces no pixel data).  Then run 2 reports `part10_in =
yes`, `decompressed = no`, and the same `ts_out` as run 1. -/
theorem claim8_idempotence
    (src1 dst1 src2 dst2 : String) (sp og sp2 og2 : Bool)
    (env1 env2 : Env) (ds ds2 fds : Dataset)
    (h1 : env1.read = .ok ds)
    (hsk1 : (og && ! looks_like_ge ds) = false)
    (hsave1 : env1.save = .ok ())
    (hw1 : (normalise_one src1 dst1 sp og env1).written = some fds)
    (hver1 : env1.verifyRead = fds.fileMeta)
    (h2 : env2.read = .ok ds2)
    (hsk2 : (og2 && ! looks_like_ge ds2) = false)
    (hsave2 : env2.save = .ok ())
    (hmeta : ds2.fileMeta = fds.fileMeta)
    (hparse2 : env2.uidParse (targetOf ds env1) = some (targetOf ds env1))
    (hcomp : env2.isCompressedRes = env1.isCompressedRes)
    (hattr : env2.hasDecompressAttr = env1.hasDecompressAttr)
    (hdecr : env2.decompressResult = env1.decompressResult)
    (hpix : env2.pixelArrayOk = env1.pixelArrayOk)
    (hregE : is_compressed env1 (some ExplicitVRLittleEndian) = false)
    (hregI : is_compressed env1 (some ImplicitVRLittleEndian) = false)
    (hpd : hasPixelData ds2 = true → hasPixelData ds = true)
    (hver2 : env2.verifyRead
      = some (build_file_meta (sourceAfterDecompress ds2 env2)
          (targetOf ds2 env2) env2.genUID)) :
    (normalise_one src2 dst2 sp2 og2 env2).row.part10_in = "yes"
    ∧ (normalise_one src2 dst2 sp2 og2 env2).row.decompressed = "no"
    ∧ (normalise_one src2 dst2 sp2 og2 env2).row.ts_out
        = (normalise_one src1 dst1 sp og env1).row.ts_out := by
  have hfds : fds = outputDataset ds env1 sp := by
    rw [normalise_one_written_eq src1 dst1 sp og env1 ds h1 hsk1] at hw1
    exact (Option.some.inj hw1).symm
  have hfm : fds.fileMeta
      = some (build_file_meta (sourceAfterDecompress ds env1)
          (targetOf ds env1) env1.genUID) := by
    rw [hfds, outputDataset_fileMeta]
  have hds2fm : ds2.fileMeta
      = some (build_file_meta (sourceAfterDecompress ds env1)
          (targetOf ds env1) env1.genUID) := hmeta.trans hfm
  have hp10 : is_part10 ds2 = true := by
    unfold is_part10
    rw [hds2fm]
    simp [build_file_meta]
  have hts2 : ts_of ds2 env2 = some (targetOf ds env1) := by
    unfold ts_of
    rw [hp10, hds2fm]
    simp [build_file_meta, hparse2]
  have hdec2 : (try_decompress ds2 env2).1 = false := by
    cases hd1 : (try_decompress ds env1).1 with
    | true =>
      refine try_decompress_fst_of_not_compressed ds2 env2 _ hts2 ?_
      rw [targetOf_of_decompressed ds env1 hd1]
      exact (is_compressed_congr env1 env2 hcomp _).trans hregE
    | false =>
      cases hts1 : ts_of ds env1 with
      | none =>
        refine try_decompress_fst_of_not_compressed ds2 env2 _ hts2 ?_
        rw [targetOf_of_none ds env1 hd1 hts1]
        exact (is_compressed_congr env1 env2 hcomp _).trans hregI
      | some t =>
        by_cases hte : t = ""
        · subst hte
          refine try_decompress_fst_of_not_compressed ds2 env2 _ hts2 ?_
          rw [targetOf_of_empty ds env1 hd1 hts1]
          exact (is_compressed_congr env1 env2 hcomp _).trans hregI
        · have ht : targetOf ds env1 = t := targetOf_of_ts ds env1 t hd1 hts1 hte
          cases hc1 : is_compressed env1 (some t) with
          | false =>
            refine try_decompress_fst_of_not_compressed ds2 env2 _ hts2 ?_
            rw [ht]
            exact (is_compressed_congr env1 env2 hcomp _).trans hc1
          | true =>
            cases hpx2 : hasPixelData ds2 with
            | false => exact try_decompress_fst_no_pixel ds2 env2 hpx2
            | true =>
              have hpx1 : hasPixelData ds = true := hpd hpx2
              have hinv := try_decompress_fst_inv ds env1 t hpx1 hts1 hc1 hd1
              refine try_decompress_fst_fwd ds2 env2 (targetOf ds env1) hts2
                ?_ ?_ ?_
              · rw [ht]
                exact (is_compressed_congr env1 env2 hcomp _).trans hc1
              · rw [hpix]
                exact hinv.1
              · intro ha
                rw [hdecr]
                refine hinv.2 ?_
                rw [← hattr]
                exact ha
  have htarget2 : targetOf ds2 env2 = targetOf ds env1 :=
    targetOf_of_ts ds2 env2 _ hdec2 hts2 (targetOf_ne_empty ds env1)
  refine ⟨?_, ?_, ?_⟩
  · rw [normalise_one_part10 src2 dst2 sp2 og2 env2 ds2 h2 hsk2]
    simp [hp10]
  · rw [normalise_one_decompressed src2 dst2 sp2 og2 env2 ds2 h2 hsk2]
    simp [hdec2]
  · rw [normalise_one_ts_out src2 dst2 sp2 og2 env2 ds2 h2 hsk2 hsave2,
      normalise_one_ts_out src1 dst1 sp og env1 ds h1 hsk1 hsave1,
      hver2, hver1, hfm]
    simp [build_file_meta, htarget2]

/-- witness for C8: the concrete raw dataset is normalised to Implicit VR
LE; reading the written output back yields part10_in = yes, no further
decompression, and the same ts_out. -/
theorem claim8_idempotence_witness :
    env1R.read = .ok dsPlain ∧ env2R.read = .ok ds2R
    ∧ (normalise_one "b.dcm" "c.dcm" false false env2R).row.part10_in
        = "yes"
    ∧ (normalise_one "b.dcm" "c.dcm" false false env2R).row.decompressed
        = "no"
    ∧ (normalise_one "b.dcm" "c.dcm" false false env2R).row.ts_out
        = (normalise_one "a.dcm" "b.dcm" false false env1R).row.ts_out := by
  refine ⟨rfl, rfl, ?_, ?_, ?_⟩
  · exact (claim8_idempotence "a.dcm" "b.dcm" "b.dcm" "c.dcm" false false
      false false env1R env2R dsPlain ds2R
      (outputDataset dsPlain env1R false) rfl rfl rfl rfl (by decide) rfl
      rfl rfl (by decide) rfl rfl rfl rfl (by decide) (by decide)
      (by decide) (by decide) (by decide)).1
  · exact (claim8_idempotence "a.dcm" "b.dcm" "b.dcm" "c.dcm" false false
      false false env1R env2R dsPlain ds2R
      (outputDataset dsPlain env1R false) rfl rfl rfl rfl (by decide) rfl
      rfl rfl (by decide) rfl rfl rfl rfl (by decide) (by decide)
      (by decide) (by decide) (by decide)).2.1
  · exact (claim8_idempotence "a.dcm" "b.dcm" "b.dcm" "c.dcm" false false
      false false env1R env2R dsPlain ds2R
      (outputDataset dsPlain env1R false) rfl rfl rfl rfl (by decide) rfl
      rfl rfl (by decide) rfl rfl rfl rfl (by decide) (by decide)
      (by decide) (by decide) (by decide)).2.2

end DicomNormalize
